import Mathlib

/-!
Shallow embedding of the alexiAId client core: the persisted application
store (zustand store in src/lib/store), the iframe event normalizer
(src/lib/ttai/client.ts), the data-portability layer (exportData /
importData), and the report-card consumers of src/app/results/page.tsx.

JavaScript runtime values produced by JSON.parse are modelled by the
inductive type Json below; numbers are modelled as integers, which covers
every numeric value this code base manipulates (timestamps, durations,
scores, intensities).  A missing object property (undefined) is modelled
as Option.none.
-/

namespace AlexiAId

/-- A parsed JSON value (the result of JSON.parse). -/
inductive Json where
  | null : Json
  | bool : Bool → Json
  | num : Int → Json
  | str : String → Json
  | arr : List Json → Json
  | obj : List (String × Json) → Json

/-- Property lookup in a key-value list: first binding wins (JS objects
cannot hold a key twice, so well-formed lists have distinct keys). -/
def jsGetKvs : List (String × Json) → String → Option Json
  | [], _ => none
  | (k, v) :: rest, key => if k = key then some v else jsGetKvs rest key

/-- JS property access on a parsed value: a non-object has no data
properties, so access yields undefined (none). -/
def jsGet : Json → String → Option Json
  | Json.obj kvs, key => jsGetKvs kvs key
  | _, _ => none

/-- JS truthiness of a parsed value. -/
def jsTruthy : Json → Bool
  | Json.null => false
  | Json.bool b => b
  | Json.num n => n != 0
  | Json.str s => s ≠ ""
  | Json.arr _ => true
  | Json.obj _ => true

/-- JS truthiness where none stands for undefined. -/
def jsTruthyOpt : Option Json → Bool
  | none => false
  | some v => jsTruthy v

/-- The JS expression v-or-else-d (written with two vertical bars in the
source): the left value when truthy, otherwise the fallback. -/
def jsOrElse (v : Option Json) (d : Json) : Json :=
  match v with
  | some j => if jsTruthy j then j else d
  | none => d

/-! ## Store data model (src/lib/store) -/

/-- The two account kinds of the User interface field named type
(string literals local and firebase in the source; the first is renamed
here because local is a Lean keyword). -/
inductive UserType where
  | localUser : UserType
  | firebase : UserType
deriving DecidableEq

/-- The User interface. -/
structure User where
  id : String
  name : String
  email : Option String
  type : UserType
  createdAt : String
deriving DecidableEq

/-- One entry of the evaluation report card (ReportCardItem). -/
structure ReportCardItem where
  topic : String
  score : Int
  score_str : String
  note : String
  weight : Int
deriving DecidableEq

/-- EvaluationResults, nested in a session detail. -/
structure EvaluationResults where
  overall_score : Option String
  strengths : Option String
  weaknesses : Option String
  detailed_feedback : Option String
  report_card : Option (List ReportCardItem)
  final_score : Option Int
deriving DecidableEq

/-- ImprovementResults, nested in a session detail. -/
structure ImprovementResults where
  improvement_areas : Option String
  action_items : Option String
  resources : Option String
deriving DecidableEq

/-- The scenarioType field of a session detail. -/
inductive ScenarioType where
  | assessment : ScenarioType
  | coach : ScenarioType
deriving DecidableEq

/-- The status field of a session detail. -/
inductive SessionStatus where
  | active : SessionStatus
  | completed : SessionStatus
  | cancelled : SessionStatus
  | terminated : SessionStatus
deriving DecidableEq

/-- A session detail record.  At runtime such a record is a plain JS
object whose keys may each be absent: updateSessionDetails happily
creates a record holding only the fields it was given, so even the
fields the SessionDetails interface marks as required (id, scenarioId,
scenarioType) can be missing.  Every field is therefore an Option here,
with none meaning the key is absent.  The same type serves as the
argument of the mutators that take a TS Partial of SessionDetails. -/
structure SessionDetails where
  id : Option String
  scenarioId : Option String
  scenarioType : Option ScenarioType
  scenario_id : Option String
  scenario_name : Option String
  status : Option SessionStatus
  created_at : Option String
  completed_at : Option String
  user_name : Option String
  user_email : Option String
  duration : Option Int
  finalized_transcript : Option String
  evaluation_results : Option EvaluationResults
  improvement_results : Option ImprovementResults
deriving DecidableEq

/-- The record with every key absent. -/
def SessionDetails.empty : SessionDetails :=
  ⟨none, none, none, none, none, none, none, none, none, none, none, none,
   none, none⟩

/-- JS object-spread choice for one field: the later record wins when it
carries the key, otherwise the earlier value is kept. -/
def pickOpt {α : Type} (later earlier : Option α) : Option α :=
  match later with
  | some v => some v
  | none => earlier

/-- JS object spread of record a followed by record b (b overrides a on
every key it carries). -/
def SessionDetails.spread (a b : SessionDetails) : SessionDetails where
  id := pickOpt b.id a.id
  scenarioId := pickOpt b.scenarioId a.scenarioId
  scenarioType := pickOpt b.scenarioType a.scenarioType
  scenario_id := pickOpt b.scenario_id a.scenario_id
  scenario_name := pickOpt b.scenario_name a.scenario_name
  status := pickOpt b.status a.status
  created_at := pickOpt b.created_at a.created_at
  completed_at := pickOpt b.completed_at a.completed_at
  user_name := pickOpt b.user_name a.user_name
  user_email := pickOpt b.user_email a.user_email
  duration := pickOpt b.duration a.duration
  finalized_transcript := pickOpt b.finalized_transcript a.finalized_transcript
  evaluation_results := pickOpt b.evaluation_results a.evaluation_results
  improvement_results := pickOpt b.improvement_results a.improvement_results

/-- A journal entry.  The intensity is an integer (1 to 5 in the TS
literal type). -/
structure JournalEntry where
  id : String
  userId : String
  date : String
  emotions : List String
  intensity : Int
  situation : String
  thoughts : String
  bodySensations : String
  notes : Option String
  tags : Option (List String)
  createdAt : String
  updatedAt : String
deriving DecidableEq

/-- An activity log entry.  The action is one of the twelve string
literals of the source enum; it is kept as a string here.  The metadata
field is an arbitrary JS record. -/
structure ActivityLog where
  id : String
  userId : String
  userName : String
  userEmail : Option String
  action : String
  details : Option String
  metadata : Option Json
  timestamp : String

/-- The sessionDetails map: a JS object keyed by session id, modelled as
a key-value list in insertion order. -/
abbrev DetailsMap : Type := List (String × SessionDetails)

/-- Lookup in the sessionDetails object. -/
def objGet (m : DetailsMap) (k : String) : Option SessionDetails :=
  match m with
  | [] => none
  | (k', v) :: rest => if k' = k then some v else objGet rest k

/-- JS computed-key write inside an object literal: an existing key keeps
its position and gets the new value, a new key is appended. -/
def objSet (m : DetailsMap) (k : String) (v : SessionDetails) : DetailsMap :=
  match m with
  | [] => [(k, v)]
  | (k', v') :: rest =>
      if k' = k then (k, v) :: rest else (k', v') :: objSet rest k v

/-- JS rest-destructuring that drops one key (the source writes a
destructuring of the form: take the binding at the session id out, keep
the rest). -/
def objDelete (m : DetailsMap) (k : String) : DetailsMap :=
  match m with
  | [] => []
  | (k', v) :: rest =>
      if k' = k then objDelete rest k else (k', v) :: objDelete rest k

/-- The AppState interface: the data fields of the store. -/
structure AppState where
  user : Option User
  adminToken : Option String
  userPersonalityType : Option String
  userPersonalityAssessment : Option String
  userPersonalitySessionId : Option String
  assessmentSessions : List String
  coachSessions : List String
  sessionDetails : DetailsMap
  journalEntries : List JournalEntry
  activityLogs : List ActivityLog

/-- initialState of the store. -/
def initialState : AppState :=
  { user := none
    adminToken := none
    userPersonalityType := none
    userPersonalityAssessment := none
    userPersonalitySessionId := none
    assessmentSessions := []
    coachSessions := []
    sessionDetails := []
    journalEntries := []
    activityLogs := [] }

/-! ## Store mutators

Each zustand action is modelled as a function from its arguments and the
current state to the next state.  A zustand set call merges the returned
partial record into the state, so fields the action does not mention are
kept. -/

/-- setUser action. -/
def setUser (user : Option User) (s : AppState) : AppState :=
  { s with user := user }

/-- setAdminToken action. -/
def setAdminToken (token : Option String) (s : AppState) : AppState :=
  { s with adminToken := token }

/-- setUserPersonalityAssessment action. -/
def setUserPersonalityAssessment (ptype assessment sessionId : Option String)
    (s : AppState) : AppState :=
  { s with
    userPersonalityType := ptype
    userPersonalityAssessment := assessment
    userPersonalitySessionId := sessionId }

/-- The detail record an add-session action builds: an object literal
holding id, scenarioId (the scenarioId of the details argument when
truthy, else the empty string), scenarioType, spread with the details
argument, which therefore overrides any of the three base fields it
carries.  The details argument is optional in the source. -/
def addSessionRecord (sessionId : String) (stype : ScenarioType)
    (details : Option SessionDetails) : SessionDetails :=
  SessionDetails.spread
    { SessionDetails.empty with
        id := some sessionId
        scenarioId := some ((details.bind (·.scenarioId)).getD "")
        scenarioType := some stype }
    (details.getD SessionDetails.empty)

/-- addAssessmentSession action: append the id to assessmentSessions
unless already contained, and write a fresh detail record at that id. -/
def addAssessmentSession (sessionId : String) (details : Option SessionDetails)
    (s : AppState) : AppState :=
  { s with
    assessmentSessions :=
      if s.assessmentSessions.contains sessionId then s.assessmentSessions
      else s.assessmentSessions ++ [sessionId]
    sessionDetails :=
      objSet s.sessionDetails sessionId
        (addSessionRecord sessionId ScenarioType.assessment details) }

/-- removeAssessmentSession action. -/
def removeAssessmentSession (sessionId : String) (s : AppState) : AppState :=
  { s with
    assessmentSessions := s.assessmentSessions.filter (fun id => id ≠ sessionId)
    sessionDetails := objDelete s.sessionDetails sessionId }

/-- addCoachSession action. -/
def addCoachSession (sessionId : String) (details : Option SessionDetails)
    (s : AppState) : AppState :=
  { s with
    coachSessions :=
      if s.coachSessions.contains sessionId then s.coachSessions
      else s.coachSessions ++ [sessionId]
    sessionDetails :=
      objSet s.sessionDetails sessionId
        (addSessionRecord sessionId ScenarioType.coach details) }

/-- removeCoachSession action. -/
def removeCoachSession (sessionId : String) (s : AppState) : AppState :=
  { s with
    coachSessions := s.coachSessions.filter (fun id => id ≠ sessionId)
    sessionDetails := objDelete s.sessionDetails sessionId }

/-- updateSessionDetails action: spread of the existing record at that id
(spreading an undefined lookup contributes nothing, exactly like
spreading the empty record) followed by the details argument. -/
def updateSessionDetails (sessionId : String) (details : SessionDetails)
    (s : AppState) : AppState :=
  { s with
    sessionDetails :=
      objSet s.sessionDetails sessionId
        (SessionDetails.spread
          ((objGet s.sessionDetails sessionId).getD SessionDetails.empty)
          details) }

/-- clearUserData action: keep only the journal entries of other users. -/
def clearUserData (userId : String) (s : AppState) : AppState :=
  { s with
    journalEntries := s.journalEntries.filter (fun entry => entry.userId ≠ userId) }

/-- clearAll action: a set call with initialState, which carries every
data field, so the resulting data state is exactly initialState. -/
def clearAll (_ : AppState) : AppState :=
  initialState

/-! ## Iframe event normalizer and listener (src/lib/ttai) -/

/-- TOUGHTONGUE_ORIGIN from src/lib/ttai/constants.ts. -/
def TOUGHTONGUE_ORIGIN : String := "https://app.toughtongueai.com"

/-- The normalized IframeEventData record.  The runtime values put into
session_id, scenario_id and duration_seconds are whatever the raw
message carried (the TS as-casts have no runtime effect), so they are
kept as parsed values here; scenario_id and duration_seconds may be
undefined (none). -/
structure IframeEventData where
  session_id : Json
  scenario_id : Option Json
  duration_seconds : Option Json
  timestamp : Int

mutual

/-- String conversion as applied by the JS String function to the
message field of an error payload: an array converts to its elements
joined with commas. -/
def jsStringOf : Json → String
  | Json.null => "null"
  | Json.bool true => "true"
  | Json.bool false => "false"
  | Json.num n => toString n
  | Json.str s => s
  | Json.arr l => String.intercalate "," (jsStringOfElems l)
  | Json.obj _ => "[object Object]"

/-- The element conversions of a JS array join: a null element becomes
empty, every other element converts as usual. -/
def jsStringOfElems : List Json → List String
  | [] => []
  | Json.null :: rest => "" :: jsStringOfElems rest
  | j :: rest => jsStringOf j :: jsStringOfElems rest

end

/-- normalizeEventPayload.  Format A fires when the event key holds a
truthy string; otherwise format B fires when the type key holds a truthy
string; otherwise the payload is unrecognized (null).  The now argument
stands for Date.now() and parseDate for the epoch milliseconds of a date
string (format B may carry a string timestamp). -/
def normalizeEventPayload (now : Int) (parseDate : String → Int)
    (rawData : Json) : Option (String × IframeEventData) :=
  match jsGet rawData "event" with
  | some (Json.str e) =>
      if e ≠ "" then
        some (e,
          { session_id :=
              jsOrElse (jsGet rawData "sessionId")
                (jsOrElse (jsGet rawData "session_id") (Json.str ""))
            scenario_id := jsGet rawData "scenarioId"
            duration_seconds := jsGet rawData "duration_seconds"
            timestamp :=
              match jsGet rawData "timestamp" with
              | some (Json.num n) => n
              | _ => now })
      else normalizeFormatB now parseDate rawData
  | _ => normalizeFormatB now parseDate rawData
where
  /-- Format B branch: a nested data record (or the empty object when the
  data key is falsy). -/
  normalizeFormatB (now : Int) (parseDate : String → Int) (rawData : Json) :
      Option (String × IframeEventData) :=
    match jsGet rawData "type" with
    | some (Json.str t) =>
        if t ≠ "" then
          let nested := jsOrElse (jsGet rawData "data") (Json.obj [])
          some (t,
            { session_id := jsOrElse (jsGet nested "session_id") (Json.str "")
              scenario_id := jsGet nested "scenario_id"
              duration_seconds := jsGet nested "duration_seconds"
              timestamp :=
                match jsGet nested "timestamp" with
                | some (Json.num n) => n
                | some (Json.str ts) => parseDate ts
                | _ => now })
        else none
    | _ => none

/-- The handler invocation the listener performs for one message, if
any: exactly one of the six registered callbacks with its payload. -/
inductive Dispatch where
  | start : IframeEventData → Dispatch
  | stop : IframeEventData → Dispatch
  | terminated : IframeEventData → Dispatch
  | submit : IframeEventData → Dispatch
  | error : Json → Dispatch
  | ready : Json → Dispatch

/-- JS strict equality of a possibly-undefined value against a string
literal. -/
def jsIsStr (v : Option Json) (s : String) : Bool :=
  match v with
  | some (Json.str t) => t = s
  | _ => false

/-- A delivered message event: its origin and its parsed data. -/
structure MessageEvent where
  origin : String
  data : Json

/-- The message handler installed by createIframeEventListener, as the
choice of handler invocation it makes (none when it returns without
calling any handler).  The checks follow the source in order: origin
filter, object check (a typeof-object value that is truthy, so an object
or an array), onError, onReady, then normalization and the event-type
switch. -/
def handleMessage (now : Int) (parseDate : String → Int)
    (event : MessageEvent) : Option Dispatch :=
  if event.origin ≠ TOUGHTONGUE_ORIGIN then none
  else
    let rawData := event.data
    if ¬ (rawData matches Json.obj _ ∨ rawData matches Json.arr _) then none
    else if jsIsStr (jsGet rawData "type") "onError" ∨
            jsIsStr (jsGet rawData "event") "onError" then
      some (Dispatch.error
        (jsOrElse (jsGet rawData "data")
          (Json.obj
            [("code", Json.str "unknown"),
             ("message",
              Json.str (jsStringOf
                (jsOrElse (jsGet rawData "message")
                  (Json.str "Unknown error"))))])))
    else if jsIsStr (jsGet rawData "type") "onReady" ∨
            jsIsStr (jsGet rawData "event") "onReady" then
      some (Dispatch.ready
        (jsOrElse ((jsGet rawData "data").bind (fun d => jsGet d "scenario_id"))
          (jsOrElse (jsGet rawData "scenarioId") (Json.str ""))))
    else
      match normalizeEventPayload now parseDate rawData with
      | none => none
      | some (eventType, data) =>
          if eventType = "onStart" then some (Dispatch.start data)
          else if eventType = "onStop" then some (Dispatch.stop data)
          else if eventType = "onTerminated" then some (Dispatch.terminated data)
          else if eventType = "onSubmit" then some (Dispatch.submit data)
          else none

/-- One listener step over the store: the registered handlers are
arbitrary store actions (act gives the state change a handler invocation
performs); a message that dispatches nothing leaves the state alone. -/
def listenerStep (act : Dispatch → AppState → AppState) (now : Int)
    (parseDate : String → Int) (event : MessageEvent) (s : AppState) : AppState :=
  match handleMessage now parseDate event with
  | none => s
  | some d => act d s

/-! ## Report-card consumers (src/app/results/page.tsx) -/

/-- The JS expression s-or-else-null on an optionally absent string: an
absent or empty string yields null. -/
def jsStrOrNull (v : Option String) : Option String :=
  match v with
  | some s => if s = "" then none else some s
  | none => none

/-- The JS expression a-or-else-b on an optionally absent string with a
string fallback. -/
def jsStrOr (v : Option String) (d : String) : String :=
  match v with
  | some s => if s = "" then d else s
  | none => d

/-- The label field of the DIMENSION_LABELS lookup for a topic
(undefined for an unknown topic, which the optional chaining turns into
an absent label). -/
def dimensionLabel (topic : String) : Option String :=
  if topic = "extraversion_introversion" then some "Energy Direction"
  else if topic = "sensing_intuition" then some "Information Processing"
  else if topic = "thinking_feeling" then some "Decision Making"
  else if topic = "judging_perceiving" then some "Lifestyle Orientation"
  else if topic = "personality_assessment" then some "Your Personality Type"
  else none

/-- buildAssessmentSummary: the first report-card item whose topic is
personality_assessment gives the type; the items whose topic differs are
the dimensions. -/
def buildAssessmentSummary (reportCard : List ReportCardItem) : String :=
  match reportCard.find? (fun item => item.topic == "personality_assessment") with
  | none => ""
  | some typeItem =>
      let dimensions :=
        reportCard.filter (fun item => item.topic ≠ "personality_assessment")
      let dimensionSummary :=
        String.intercalate ". "
          (dimensions.map (fun d =>
            jsStrOr (dimensionLabel d.topic) d.topic ++ ": " ++ d.score_str))
      "The user\x27s MBTI personality has been assessed as " ++
        typeItem.score_str ++ ". " ++ dimensionSummary ++ ". " ++
        jsStrOr (some ((typeItem.note.splitOn "\n").headD "")) ""

/-- The record getPersonalityData returns. -/
structure PersonalityData where
  type : Option String
  typeNote : Option String
  dimensions : List ReportCardItem
deriving DecidableEq

/-- getPersonalityData. -/
def getPersonalityData (reportCard : Option (List ReportCardItem)) :
    PersonalityData :=
  match reportCard with
  | none => ⟨none, none, []⟩
  | some rc =>
      let typeItem := rc.find? (fun item => item.topic == "personality_assessment")
      ⟨jsStrOrNull (typeItem.map (·.score_str)),
       jsStrOrNull (typeItem.map (·.note)),
       rc.filter (fun item => item.topic ≠ "personality_assessment")⟩

/-- markAsFinalAssessment: a no-op unless the session detail at that id
carries a truthy report card (an array is always truthy); then the first
personality_assessment item gives the MBTI type and the summary is built
from the whole card. -/
def markAsFinalAssessment (sessionId : String) (s : AppState) : AppState :=
  match ((objGet s.sessionDetails sessionId).bind
          (·.evaluation_results)).bind (·.report_card) with
  | none => s
  | some rc =>
      let typeItem := rc.find? (fun item => item.topic == "personality_assessment")
      setUserPersonalityAssessment
        (jsStrOrNull (typeItem.map (·.score_str)))
        (some (buildAssessmentSummary rc))
        (some sessionId) s

/-! ## Data portability layer (exportData / importData)

exportData returns JSON.stringify of a document built from the state;
importData runs JSON.parse on its argument and stores the parsed
top-level data fields.  The string stage is modelled by the parsed value
itself: the encoders below give the parsed form of the serialized state
(JSON.stringify drops keys whose value is undefined, hence the optional
key blocks), and importData takes the result of JSON.parse, with none
standing for an input on which JSON.parse throws.  The runtime store is
untyped and importData stores the parsed field values verbatim; this
typed model decodes them, and the decoders are exact inverses of the
encoders (proved below), so the model agrees with the source on every
document exportData can produce and on every rejected document. -/

/-- One key of a serialized object that is dropped when the value is
undefined. -/
def encOpt (k : String) (v : Option Json) : List (String × Json) :=
  match v with
  | some j => [(k, j)]
  | none => []

/-- Serialized form of the type field of a user. -/
def encodeUserType : UserType → Json
  | UserType.localUser => Json.str "local"
  | UserType.firebase => Json.str "firebase"

/-- Serialized form of a user record. -/
def encodeUser (u : User) : Json :=
  Json.obj
    ([("id", Json.str u.id), ("name", Json.str u.name)] ++
     encOpt "email" (u.email.map Json.str) ++
     [("type", encodeUserType u.type), ("createdAt", Json.str u.createdAt)])

/-- Serialized form of a nullable value. -/
def encodeNullable {α : Type} (f : α → Json) : Option α → Json
  | some v => f v
  | none => Json.null

/-- Serialized form of a report-card item. -/
def encodeReportCardItem (it : ReportCardItem) : Json :=
  Json.obj
    [("topic", Json.str it.topic), ("score", Json.num it.score),
     ("score_str", Json.str it.score_str), ("note", Json.str it.note),
     ("weight", Json.num it.weight)]

/-- Serialized form of evaluation results. -/
def encodeEvaluationResults (e : EvaluationResults) : Json :=
  Json.obj
    (encOpt "overall_score" (e.overall_score.map Json.str) ++
     encOpt "strengths" (e.strengths.map Json.str) ++
     encOpt "weaknesses" (e.weaknesses.map Json.str) ++
     encOpt "detailed_feedback" (e.detailed_feedback.map Json.str) ++
     encOpt "report_card"
       (e.report_card.map (fun rc => Json.arr (rc.map encodeReportCardItem))) ++
     encOpt "final_score" (e.final_score.map Json.num))

/-- Serialized form of improvement results. -/
def encodeImprovementResults (e : ImprovementResults) : Json :=
  Json.obj
    (encOpt "improvement_areas" (e.improvement_areas.map Json.str) ++
     encOpt "action_items" (e.action_items.map Json.str) ++
     encOpt "resources" (e.resources.map Json.str))

/-- Serialized form of the scenarioType field. -/
def encodeScenarioType : ScenarioType → Json
  | ScenarioType.assessment => Json.str "assessment"
  | ScenarioType.coach => Json.str "coach"

/-- Serialized form of the status field. -/
def encodeStatus : SessionStatus → Json
  | SessionStatus.active => Json.str "active"
  | SessionStatus.completed => Json.str "completed"
  | SessionStatus.cancelled => Json.str "cancelled"
  | SessionStatus.terminated => Json.str "terminated"

/-- Serialized form of a session detail record. -/
def encodeSessionDetails (d : SessionDetails) : Json :=
  Json.obj
    (encOpt "id" (d.id.map Json.str) ++
     encOpt "scenarioId" (d.scenarioId.map Json.str) ++
     encOpt "scenarioType" (d.scenarioType.map encodeScenarioType) ++
     encOpt "scenario_id" (d.scenario_id.map Json.str) ++
     encOpt "scenario_name" (d.scenario_name.map Json.str) ++
     encOpt "status" (d.status.map encodeStatus) ++
     encOpt "created_at" (d.created_at.map Json.str) ++
     encOpt "completed_at" (d.completed_at.map Json.str) ++
     encOpt "user_name" (d.user_name.map Json.str) ++
     encOpt "user_email" (d.user_email.map Json.str) ++
     encOpt "duration" (d.duration.map Json.num) ++
     encOpt "finalized_transcript" (d.finalized_transcript.map Json.str) ++
     encOpt "evaluation_results"
       (d.evaluation_results.map encodeEvaluationResults) ++
     encOpt "improvement_results"
       (d.improvement_results.map encodeImprovementResults))

/-- Serialized form of a journal entry. -/
def encodeJournalEntry (e : JournalEntry) : Json :=
  Json.obj
    ([("id", Json.str e.id), ("userId", Json.str e.userId),
      ("date", Json.str e.date),
      ("emotions", Json.arr (e.emotions.map Json.str)),
      ("intensity", Json.num e.intensity),
      ("situation", Json.str e.situation),
      ("thoughts", Json.str e.thoughts),
      ("bodySensations", Json.str e.bodySensations)] ++
     encOpt "notes" (e.notes.map Json.str) ++
     encOpt "tags" (e.tags.map (fun ts => Json.arr (ts.map Json.str))) ++
     [("createdAt", Json.str e.createdAt), ("updatedAt", Json.str e.updatedAt)])

/-- exportData: the parsed form of the versioned export document.  The
exportDate argument stands for the ISO timestamp taken at export time. -/
def exportData (exportDate : String) (s : AppState) : Json :=
  Json.obj
    [("version", Json.str "1.0"),
     ("exportDate", Json.str exportDate),
     ("data", Json.obj
       [("user", encodeNullable encodeUser s.user),
        ("userPersonalityType", encodeNullable Json.str s.userPersonalityType),
        ("userPersonalityAssessment",
         encodeNullable Json.str s.userPersonalityAssessment),
        ("userPersonalitySessionId",
         encodeNullable Json.str s.userPersonalitySessionId),
        ("assessmentSessions", Json.arr (s.assessmentSessions.map Json.str)),
        ("coachSessions", Json.arr (s.coachSessions.map Json.str)),
        ("sessionDetails",
         Json.obj (s.sessionDetails.map
           (fun kv => (kv.1, encodeSessionDetails kv.2)))),
        ("journalEntries", Json.arr (s.journalEntries.map encodeJournalEntry))])]

/-! ### Decoders -/

/-- Read a parsed value back as a string. -/
def asStr : Json → Option String
  | Json.str s => some s
  | _ => none

/-- Read a parsed value back as a number. -/
def asInt : Json → Option Int
  | Json.num n => some n
  | _ => none

/-- Read a parsed value back as a list of strings. -/
def asStrList : Json → Option (List String)
  | Json.arr l => some (l.filterMap asStr)
  | _ => none

/-- Read the type field of a user back. -/
def decodeUserType : Json → Option UserType
  | Json.str "local" => some UserType.localUser
  | Json.str "firebase" => some UserType.firebase
  | _ => none

/-- Read a user record back (none for null, for a non-object and for an
object missing a required field). -/
def decodeUser (j : Json) : Option User :=
  ((jsGet j "id").bind asStr).bind fun id =>
  ((jsGet j "name").bind asStr).bind fun name =>
  ((jsGet j "type").bind decodeUserType).bind fun utype =>
  ((jsGet j "createdAt").bind asStr).bind fun createdAt =>
  some ⟨id, name, (jsGet j "email").bind asStr, utype, createdAt⟩

/-- Read a report-card item back. -/
def decodeReportCardItem (j : Json) : Option ReportCardItem :=
  ((jsGet j "topic").bind asStr).bind fun topic =>
  ((jsGet j "score").bind asInt).bind fun score =>
  ((jsGet j "score_str").bind asStr).bind fun score_str =>
  ((jsGet j "note").bind asStr).bind fun note =>
  ((jsGet j "weight").bind asInt).bind fun weight =>
  some ⟨topic, score, score_str, note, weight⟩

/-- Read a report card back. -/
def decodeReportCard : Json → Option (List ReportCardItem)
  | Json.arr l => some (l.filterMap decodeReportCardItem)
  | _ => none

/-- Read evaluation results back. -/
def decodeEvaluationResults : Json → Option EvaluationResults
  | Json.obj kvs => some
      { overall_score := (jsGetKvs kvs "overall_score").bind asStr
        strengths := (jsGetKvs kvs "strengths").bind asStr
        weaknesses := (jsGetKvs kvs "weaknesses").bind asStr
        detailed_feedback := (jsGetKvs kvs "detailed_feedback").bind asStr
        report_card := (jsGetKvs kvs "report_card").bind decodeReportCard
        final_score := (jsGetKvs kvs "final_score").bind asInt }
  | _ => none

/-- Read improvement results back. -/
def decodeImprovementResults : Json → Option ImprovementResults
  | Json.obj kvs => some
      { improvement_areas := (jsGetKvs kvs "improvement_areas").bind asStr
        action_items := (jsGetKvs kvs "action_items").bind asStr
        resources := (jsGetKvs kvs "resources").bind asStr }
  | _ => none

/-- Read the scenarioType field back. -/
def decodeScenarioType : Json → Option ScenarioType
  | Json.str "assessment" => some ScenarioType.assessment
  | Json.str "coach" => some ScenarioType.coach
  | _ => none

/-- Read the status field back. -/
def decodeStatus : Json → Option SessionStatus
  | Json.str "active" => some SessionStatus.active
  | Json.str "completed" => some SessionStatus.completed
  | Json.str "cancelled" => some SessionStatus.cancelled
  | Json.str "terminated" => some SessionStatus.terminated
  | _ => none

/-- Read a session detail record back; every key may be absent. -/
def decodeSessionDetails (j : Json) : SessionDetails where
  id := (jsGet j "id").bind asStr
  scenarioId := (jsGet j "scenarioId").bind asStr
  scenarioType := (jsGet j "scenarioType").bind decodeScenarioType
  scenario_id := (jsGet j "scenario_id").bind asStr
  scenario_name := (jsGet j "scenario_name").bind asStr
  status := (jsGet j "status").bind decodeStatus
  created_at := (jsGet j "created_at").bind asStr
  completed_at := (jsGet j "completed_at").bind asStr
  user_name := (jsGet j "user_name").bind asStr
  user_email := (jsGet j "user_email").bind asStr
  duration := (jsGet j "duration").bind asInt
  finalized_transcript := (jsGet j "finalized_transcript").bind asStr
  evaluation_results := (jsGet j "evaluation_results").bind decodeEvaluationResults
  improvement_results := (jsGet j "improvement_results").bind decodeImprovementResults

/-- Read the sessionDetails map back. -/
def decodeDetailsMap : Json → DetailsMap
  | Json.obj kvs => kvs.map (fun kv => (kv.1, decodeSessionDetails kv.2))
  | _ => []

/-- Read a list of session ids back. -/
def decodeStrListD : Json → List String
  | Json.arr l => l.filterMap asStr
  | _ => []

/-- Read a journal entry back. -/
def decodeJournalEntry (j : Json) : Option JournalEntry :=
  ((jsGet j "id").bind asStr).bind fun id =>
  ((jsGet j "userId").bind asStr).bind fun userId =>
  ((jsGet j "date").bind asStr).bind fun date =>
  ((jsGet j "emotions").bind asStrList).bind fun emotions =>
  ((jsGet j "intensity").bind asInt).bind fun intensity =>
  ((jsGet j "situation").bind asStr).bind fun situation =>
  ((jsGet j "thoughts").bind asStr).bind fun thoughts =>
  ((jsGet j "bodySensations").bind asStr).bind fun bodySensations =>
  ((jsGet j "createdAt").bind asStr).bind fun createdAt =>
  ((jsGet j "updatedAt").bind asStr).bind fun updatedAt =>
  some ⟨id, userId, date, emotions, intensity, situation, thoughts,
        bodySensations, (jsGet j "notes").bind asStr,
        (jsGet j "tags").bind asStrList, createdAt, updatedAt⟩

/-- Read the journal entry list back. -/
def decodeJournalList : Json → List JournalEntry
  | Json.arr l => l.filterMap decodeJournalEntry
  | _ => []

/-- The JS expression v-or-else-null. -/
def jsOrNull (v : Option Json) : Json :=
  jsOrElse v Json.null

/-- importData on the result of JSON.parse of its argument (none when
parsing throws; the thrown error is caught and false returned).
Property access on parsed null throws inside the try block, which the
catch also turns into false.  A document whose data or version key is
falsy (in particular absent) is rejected with false and the state is
untouched; otherwise the eight covered fields are replaced, each
defaulted through the JS or-else fallbacks of the source, and true is
returned. -/
def importData (parsed : Option Json) (s : AppState) : AppState × Bool :=
  match parsed with
  | none => (s, false)
  | some Json.null => (s, false)
  | some p =>
      if jsTruthyOpt (jsGet p "data") && jsTruthyOpt (jsGet p "version") then
        let d := (jsGet p "data").getD Json.null
        ({ s with
           user := decodeUser (jsOrNull (jsGet d "user"))
           userPersonalityType := asStr (jsOrNull (jsGet d "userPersonalityType"))
           userPersonalityAssessment :=
             asStr (jsOrNull (jsGet d "userPersonalityAssessment"))
           userPersonalitySessionId :=
             asStr (jsOrNull (jsGet d "userPersonalitySessionId"))
           assessmentSessions :=
             decodeStrListD (jsOrElse (jsGet d "assessmentSessions") (Json.arr []))
           coachSessions :=
             decodeStrListD (jsOrElse (jsGet d "coachSessions") (Json.arr []))
           sessionDetails :=
             decodeDetailsMap (jsOrElse (jsGet d "sessionDetails") (Json.obj []))
           journalEntries :=
             decodeJournalList (jsOrElse (jsGet d "journalEntries") (Json.arr []))
         }, true)
      else (s, false)

/-! ## Codec roundtrip lemmas -/

@[simp]
theorem pickOpt_none_right {α : Type} (v : Option α) : pickOpt v none = v := by
  cases v <;> rfl

@[simp]
theorem pickOpt_none_left {α : Type} (v : Option α) : pickOpt none v = v := rfl

@[simp]
theorem pickOpt_some_left {α : Type} (a : α) (v : Option α) :
    pickOpt (some a) v = some a := rfl

@[simp]
theorem jsGetKvs_append (l₁ l₂ : List (String × Json)) (k : String) :
    jsGetKvs (l₁ ++ l₂) k = pickOpt (jsGetKvs l₁ k) (jsGetKvs l₂ k) := by
  induction l₁ with
  | nil => rfl
  | cons kv rest ih =>
      by_cases h : kv.1 = k <;> simp [jsGetKvs, h, ih]

@[simp]
theorem jsGetKvs_encOpt (k' : String) (v : Option Json) (k : String) :
    jsGetKvs (encOpt k' v) k = if k' = k then v else none := by
  cases v <;> by_cases h : k' = k <;> simp [encOpt, jsGetKvs, h]

@[simp]
theorem asStr_str (s : String) : asStr (Json.str s) = some s := rfl

@[simp]
theorem asInt_num (n : Int) : asInt (Json.num n) = some n := rfl

@[simp]
theorem bind_map_asStr (o : Option String) :
    (o.map Json.str).bind asStr = o := by
  cases o <;> rfl

@[simp]
theorem bind_map_asInt (o : Option Int) :
    (o.map Json.num).bind asInt = o := by
  cases o <;> rfl

@[simp]
theorem bind_map_decodeStatus (o : Option SessionStatus) :
    (o.map encodeStatus).bind decodeStatus = o := by
  rcases o with _ | s
  · rfl
  · cases s <;> rfl

@[simp]
theorem bind_map_decodeScenarioType (o : Option ScenarioType) :
    (o.map encodeScenarioType).bind decodeScenarioType = o := by
  rcases o with _ | s
  · rfl
  · cases s <;> rfl

theorem filterMap_map_eq_self {α γ : Type} (enc : α → γ) (dec : γ → Option α)
    (h : ∀ a, dec (enc a) = some a) (l : List α) :
    (l.map enc).filterMap dec = l := by
  induction l with
  | nil => rfl
  | cons a rest ih => simp [h, ih]

@[simp]
theorem asStrList_encode (l : List String) :
    asStrList (Json.arr (l.map Json.str)) = some l := by
  simp [asStrList, filterMap_map_eq_self Json.str asStr (fun a => rfl)]

@[simp]
theorem bind_map_asStrList (o : Option (List String)) :
    (o.map (fun ts => Json.arr (ts.map Json.str))).bind asStrList = o := by
  cases o <;> simp

@[simp]
theorem decodeReportCardItem_encode (it : ReportCardItem) :
    decodeReportCardItem (encodeReportCardItem it) = some it := by
  cases it
  simp [encodeReportCardItem, decodeReportCardItem, jsGet, jsGetKvs, asStr, asInt]

@[simp]
theorem decodeReportCard_encode (rc : List ReportCardItem) :
    decodeReportCard (Json.arr (rc.map encodeReportCardItem)) = some rc := by
  simp [decodeReportCard,
    filterMap_map_eq_self encodeReportCardItem decodeReportCardItem
      decodeReportCardItem_encode]

@[simp]
theorem bind_map_decodeReportCard (o : Option (List ReportCardItem)) :
    (o.map (fun rc => Json.arr (rc.map encodeReportCardItem))).bind
      decodeReportCard = o := by
  cases o <;> simp

@[simp]
theorem decodeEvaluationResults_encode (e : EvaluationResults) :
    decodeEvaluationResults (encodeEvaluationResults e) = some e := by
  cases e
  simp [encodeEvaluationResults, decodeEvaluationResults]

@[simp]
theorem bind_map_decodeEvaluationResults (o : Option EvaluationResults) :
    (o.map encodeEvaluationResults).bind decodeEvaluationResults = o := by
  cases o <;> simp

@[simp]
theorem decodeImprovementResults_encode (e : ImprovementResults) :
    decodeImprovementResults (encodeImprovementResults e) = some e := by
  cases e
  simp [encodeImprovementResults, decodeImprovementResults]

@[simp]
theorem bind_map_decodeImprovementResults (o : Option ImprovementResults) :
    (o.map encodeImprovementResults).bind decodeImprovementResults = o := by
  cases o <;> simp

@[simp]
theorem decodeUserType_encode (t : UserType) :
    decodeUserType (encodeUserType t) = some t := by
  cases t <;> rfl

@[simp]
theorem decodeUser_encode (u : User) :
    decodeUser (encodeUser u) = some u := by
  cases u
  simp [encodeUser, decodeUser, jsGet, jsGetKvs]

@[simp]
theorem decodeSessionDetails_encode (d : SessionDetails) :
    decodeSessionDetails (encodeSessionDetails d) = d := by
  cases d
  simp [encodeSessionDetails, decodeSessionDetails, jsGet]

@[simp]
theorem decodeJournalEntry_encode (e : JournalEntry) :
    decodeJournalEntry (encodeJournalEntry e) = some e := by
  cases e
  simp [encodeJournalEntry, decodeJournalEntry, jsGet, jsGetKvs]

theorem decodeJournalList_encode (l : List JournalEntry) :
    decodeJournalList (Json.arr (l.map encodeJournalEntry)) = l := by
  simp [decodeJournalList,
    filterMap_map_eq_self encodeJournalEntry decodeJournalEntry
      decodeJournalEntry_encode]

theorem decodeDetailsMap_encode (m : DetailsMap) :
    decodeDetailsMap
      (Json.obj (m.map (fun kv => (kv.1, encodeSessionDetails kv.2)))) = m := by
  induction m with
  | nil => rfl
  | cons kv rest ih =>
      simp only [decodeDetailsMap, List.map_cons] at ih ⊢
      simp [ih, decodeSessionDetails_encode]

theorem decodeStrListD_encode (l : List String) :
    decodeStrListD (Json.arr (l.map Json.str)) = l := by
  simp [decodeStrListD, filterMap_map_eq_self Json.str asStr (fun a => rfl)]

/-! ## Store helper lemmas -/

theorem objGet_objSet_self (m : DetailsMap) (k : String) (v : SessionDetails) :
    objGet (objSet m k v) k = some v := by
  induction m with
  | nil => simp [objSet, objGet]
  | cons kv rest ih =>
      by_cases h : kv.1 = k <;> simp [objSet, objGet, h, ih]

theorem objGet_objSet_ne (m : DetailsMap) (k : String) (v : SessionDetails)
    (k' : String) (h : k' ≠ k) :
    objGet (objSet m k v) k' = objGet m k' := by
  induction m with
  | nil => simp [objSet, objGet, Ne.symm h]
  | cons kv rest ih =>
      by_cases h1 : kv.1 = k
      · subst h1
        simp [objSet, objGet, Ne.symm h]
      · by_cases h2 : kv.1 = k' <;> simp [objSet, objGet, h, h1, h2, ih]

theorem objGet_objDelete_self (m : DetailsMap) (k : String) :
    objGet (objDelete m k) k = none := by
  induction m with
  | nil => rfl
  | cons kv rest ih =>
      by_cases h : kv.1 = k <;> simp [objDelete, objGet, h, ih]

theorem objGet_objDelete_ne (m : DetailsMap) (k k' : String) (h : k' ≠ k) :
    objGet (objDelete m k) k' = objGet m k' := by
  induction m with
  | nil => rfl
  | cons kv rest ih =>
      by_cases h1 : kv.1 = k
      · subst h1
        simp [objDelete, objGet, Ne.symm h, ih]
      · by_cases h2 : kv.1 = k' <;> simp [objDelete, objGet, h, h1, h2, ih]

theorem spread_empty_left (d : SessionDetails) :
    SessionDetails.spread SessionDetails.empty d = d := by
  cases d
  simp [SessionDetails.spread, SessionDetails.empty]

theorem find?_append_first {α : Type} (p : α → Bool) (l₁ l₂ : List α) (it : α)
    (h1 : ∀ x ∈ l₁, p x = false) (h2 : p it = true) :
    (l₁ ++ it :: l₂).find? p = some it := by
  induction l₁ with
  | nil => simp [List.find?, h2]
  | cons a rest ih =>
      have ha : p a = false := h1 a (by simp)
      simp only [List.cons_append, List.find?, ha]
      exact ih (fun x hx => h1 x (by simp [hx]))

/-- The id-list step both add-session actions perform. -/
theorem count_addUnique (l : List String) (sid : String) (h : l.count sid ≤ 1) :
    (if l.contains sid then l else l ++ [sid]).count sid = 1 := by
  by_cases hc : l.contains sid
  · have hm : sid ∈ l := List.elem_iff.mp hc
    have hpos : 0 < l.count sid := List.count_pos_iff.mpr hm
    simp only [hc, if_true]
    omega
  · have hm : sid ∉ l := fun hmem => hc (List.elem_iff.mpr hmem)
    have hz : l.count sid = 0 := List.count_eq_zero.mpr hm
    simp [hm, List.count_append, hz]

/-- A sequence of addAssessmentSession calls with one session id. -/
def addAssessmentSessionSeq (sid : String) (ds : List (Option SessionDetails))
    (s : AppState) : AppState :=
  ds.foldl (fun st d => addAssessmentSession sid d st) s

/-- A sequence of addCoachSession calls with one session id. -/
def addCoachSessionSeq (sid : String) (ds : List (Option SessionDetails))
    (s : AppState) : AppState :=
  ds.foldl (fun st d => addCoachSession sid d st) s

theorem addAssessmentSession_count (s : AppState) (sid : String)
    (d : Option SessionDetails) (h : s.assessmentSessions.count sid ≤ 1) :
    (addAssessmentSession sid d s).assessmentSessions.count sid = 1 := by
  simpa [addAssessmentSession] using count_addUnique s.assessmentSessions sid h

theorem addCoachSession_count (s : AppState) (sid : String)
    (d : Option SessionDetails) (h : s.coachSessions.count sid ≤ 1) :
    (addCoachSession sid d s).coachSessions.count sid = 1 := by
  simpa [addCoachSession] using count_addUnique s.coachSessions sid h

theorem addAssessmentSessionSeq_count (sid : String) :
    ∀ (ds : List (Option SessionDetails)) (s : AppState),
      s.assessmentSessions.count sid ≤ 1 → ds ≠ [] →
      (addAssessmentSessionSeq sid ds s).assessmentSessions.count sid = 1 := by
  intro ds
  induction ds with
  | nil => intro s _ hne; exact absurd rfl hne
  | cons d rest ih =>
      intro s h _
      have h1 := addAssessmentSession_count s sid d h
      rcases rest with _ | ⟨d2, rest2⟩
      · simpa [addAssessmentSessionSeq] using h1
      · have := ih (addAssessmentSession sid d s) (le_of_eq h1) (by simp)
        simpa [addAssessmentSessionSeq] using this

theorem addCoachSessionSeq_count (sid : String) :
    ∀ (ds : List (Option SessionDetails)) (s : AppState),
      s.coachSessions.count sid ≤ 1 → ds ≠ [] →
      (addCoachSessionSeq sid ds s).coachSessions.count sid = 1 := by
  intro ds
  induction ds with
  | nil => intro s _ hne; exact absurd rfl hne
  | cons d rest ih =>
      intro s h _
      have h1 := addCoachSession_count s sid d h
      rcases rest with _ | ⟨d2, rest2⟩
      · simpa [addCoachSessionSeq] using h1
      · have := ih (addCoachSession sid d s) (le_of_eq h1) (by simp)
        simpa [addCoachSessionSeq] using this

/-! ## Claims -/

/-- C1 (amended): for every store state in which the session id occurs at
most once in the respective reference sequence (in particular for a
state that has never seen the id), and every nonempty sequence of
add-session calls with that id, the sequence contains the id exactly
once afterwards; and whenever the id is already contained, a further
call leaves the sequence unchanged (no duplicate is ever appended). -/
theorem addSession_id_exactly_once (s : AppState) (sid : String)
    (ds ds2 : List (Option SessionDetails)) (d : Option SessionDetails)
    (ha : s.assessmentSessions.count sid ≤ 1)
    (hc : s.coachSessions.count sid ≤ 1)
    (hne : ds ≠ []) (hne2 : ds2 ≠ []) :
    (addAssessmentSessionSeq sid ds s).assessmentSessions.count sid = 1 ∧
    (addCoachSessionSeq sid ds2 s).coachSessions.count sid = 1 ∧
    (sid ∈ s.assessmentSessions →
      (addAssessmentSession sid d s).assessmentSessions =
        s.assessmentSessions) ∧
    (sid ∈ s.coachSessions →
      (addCoachSession sid d s).coachSessions = s.coachSessions) := by
  refine ⟨addAssessmentSessionSeq_count sid ds s ha hne,
          addCoachSessionSeq_count sid ds2 s hc hne2, ?_, ?_⟩
  · intro hmemA
    simp [addAssessmentSession, hmemA]
  · intro hmemC
    simp [addCoachSession, hmemC]

/-- C1 witness: the main theorem applied twice, at the factory-default
state that has never seen the id (fresh insertion yields count one) and
at a state already holding the id once in each sequence (the no-append
implications are discharged there). -/
theorem addSession_id_exactly_once_witness :
    (addAssessmentSessionSeq "s1" [none]
        initialState).assessmentSessions.count "s1" = 1 ∧
    (addCoachSessionSeq "s1" [none]
        initialState).coachSessions.count "s1" = 1 ∧
    (addAssessmentSession "s1" none
        { initialState with
            assessmentSessions := ["s1"]
            coachSessions := ["s1"] }).assessmentSessions = ["s1"] ∧
    (addCoachSession "s1" none
        { initialState with
            assessmentSessions := ["s1"]
            coachSessions := ["s1"] }).coachSessions = ["s1"] :=
  ⟨(addSession_id_exactly_once initialState "s1" [none] [none] none
      (by decide) (by decide) (by decide) (by decide)).1,
   (addSession_id_exactly_once initialState "s1" [none] [none] none
      (by decide) (by decide) (by decide) (by decide)).2.1,
   (addSession_id_exactly_once
      { initialState with assessmentSessions := ["s1"], coachSessions := ["s1"] }
      "s1" [none] [none] none (by decide) (by decide) (by decide)
      (by decide)).2.2.1 (by decide),
   (addSession_id_exactly_once
      { initialState with assessmentSessions := ["s1"], coachSessions := ["s1"] }
      "s1" [none] [none] none (by decide) (by decide) (by decide)
      (by decide)).2.2.2 (by decide)⟩

/-- C1 counterexample: as literally stated over every store state the
claim fails, because a state whose reference sequence already holds the
id twice (such a state is constructible through importData or
setRawState) is left unchanged by a further add call, so the id is not
contained exactly once after the sequence. -/
theorem addSession_id_exactly_once_cex :
    (addAssessmentSessionSeq "s1" [none]
        { initialState with
            assessmentSessions := ["s1", "s1"] }).assessmentSessions.count "s1"
      ≠ 1 := by
  decide

/-- C7 (amended): processing a start event for a session id that is
already present in the reference sequence leaves the reference sequence
unchanged, but the detail record is rebuilt from scratch: the new record
is the object literal of the add action (base fields id, scenarioId,
scenarioType overridden by whatever the event handler supplies),
independent of the previous record, so every detail field the handler
does not supply in this call is dropped rather than retained (for
example completed_at and duration written by an earlier stop event). -/
theorem addAssessmentSession_repeated_replaces (s : AppState) (sid : String)
    (d : SessionDetails) (h : sid ∈ s.assessmentSessions) :
    (addAssessmentSession sid (some d) s).assessmentSessions =
      s.assessmentSessions ∧
    objGet (addAssessmentSession sid (some d) s).sessionDetails sid =
      some (addSessionRecord sid ScenarioType.assessment (some d)) ∧
    (addSessionRecord sid ScenarioType.assessment (some d)).status = d.status ∧
    (addSessionRecord sid ScenarioType.assessment (some d)).completed_at =
      d.completed_at ∧
    (addSessionRecord sid ScenarioType.assessment (some d)).duration =
      d.duration ∧
    (addSessionRecord sid ScenarioType.assessment (some d)).created_at =
      d.created_at ∧
    (addSessionRecord sid ScenarioType.assessment (some d)).scenario_id =
      d.scenario_id ∧
    (addSessionRecord sid ScenarioType.assessment (some d)).evaluation_results =
      d.evaluation_results := by
  refine ⟨by simp [addAssessmentSession, h], ?_, ?_, ?_, ?_, ?_, ?_, ?_⟩
  · simpa [addAssessmentSession] using
      objGet_objSet_self s.sessionDetails sid
        (addSessionRecord sid ScenarioType.assessment (some d))
  all_goals
    simp [addSessionRecord, SessionDetails.spread, SessionDetails.empty]

/-- The details the onStart handler of the test page supplies. -/
def startDetails (createdAt : String) : SessionDetails :=
  { SessionDetails.empty with
      scenarioId := some "69577496bd7c000fa3f4fc2a"
      scenario_id := some "sc1"
      created_at := some createdAt
      status := some SessionStatus.active }

/-- The details the onStop handler of the test page supplies. -/
def stopDetails : SessionDetails :=
  { SessionDetails.empty with
      completed_at := some "t1"
      duration := some 42
      status := some SessionStatus.completed }

/-- A state in which session s1 was started and then stopped: the detail
record carries completed_at t1 and duration 42. -/
def startedStoppedState : AppState :=
  updateSessionDetails "s1" stopDetails
    (addAssessmentSession "s1" (some (startDetails "t0")) initialState)

/-- C7 counterexample: replaying the start event for the
already-present session s1 does not retain the completed_at and
duration fields of the existing record (they are dropped to absent),
refuting the claim that fields not among the newly supplied ones keep
their prior value. -/
theorem addAssessmentSession_repeated_replaces_cex :
    "s1" ∈ startedStoppedState.assessmentSessions ∧
    (objGet startedStoppedState.sessionDetails "s1").map (·.completed_at) =
      some (some "t1") ∧
    (objGet startedStoppedState.sessionDetails "s1").map (·.duration) =
      some (some 42) ∧
    (objGet (addAssessmentSession "s1" (some (startDetails "t2"))
        startedStoppedState).sessionDetails "s1").map (·.completed_at) =
      some none ∧
    (objGet (addAssessmentSession "s1" (some (startDetails "t2"))
        startedStoppedState).sessionDetails "s1").map (·.duration) =
      some none := by
  decide

/-- C7 witness: the amended theorem applied at the started-then-stopped
state. -/
theorem addAssessmentSession_repeated_replaces_witness :
    (addAssessmentSession "s1" (some (startDetails "t2"))
        startedStoppedState).assessmentSessions =
      startedStoppedState.assessmentSessions ∧
    objGet (addAssessmentSession "s1" (some (startDetails "t2"))
        startedStoppedState).sessionDetails "s1" =
      some (addSessionRecord "s1" ScenarioType.assessment
        (some (startDetails "t2"))) ∧
    (addSessionRecord "s1" ScenarioType.assessment
        (some (startDetails "t2"))).status = (startDetails "t2").status ∧
    (addSessionRecord "s1" ScenarioType.assessment
        (some (startDetails "t2"))).completed_at =
      (startDetails "t2").completed_at ∧
    (addSessionRecord "s1" ScenarioType.assessment
        (some (startDetails "t2"))).duration = (startDetails "t2").duration ∧
    (addSessionRecord "s1" ScenarioType.assessment
        (some (startDetails "t2"))).created_at =
      (startDetails "t2").created_at ∧
    (addSessionRecord "s1" ScenarioType.assessment
        (some (startDetails "t2"))).scenario_id =
      (startDetails "t2").scenario_id ∧
    (addSessionRecord "s1" ScenarioType.assessment
        (some (startDetails "t2"))).evaluation_results =
      (startDetails "t2").evaluation_results :=
  addAssessmentSession_repeated_replaces startedStoppedState "s1"
    (startDetails "t2") (by decide)

/-- C10: removing a session removes its id from the respective reference
sequence and deletes its detail record, and leaves every other detail
record, the other reference sequence, and every remaining store field
unchanged. -/
theorem removeSession_frame (s : AppState) (sid k : String) (h : k ≠ sid) :
    sid ∉ (removeAssessmentSession sid s).assessmentSessions ∧
    objGet (removeAssessmentSession sid s).sessionDetails sid = none ∧
    objGet (removeAssessmentSession sid s).sessionDetails k =
      objGet s.sessionDetails k ∧
    (removeAssessmentSession sid s).coachSessions = s.coachSessions ∧
    (removeAssessmentSession sid s).journalEntries = s.journalEntries ∧
    (removeAssessmentSession sid s).activityLogs = s.activityLogs ∧
    (removeAssessmentSession sid s).user = s.user ∧
    (removeAssessmentSession sid s).adminToken = s.adminToken ∧
    (removeAssessmentSession sid s).userPersonalityType =
      s.userPersonalityType ∧
    (removeAssessmentSession sid s).userPersonalityAssessment =
      s.userPersonalityAssessment ∧
    (removeAssessmentSession sid s).userPersonalitySessionId =
      s.userPersonalitySessionId ∧
    sid ∉ (removeCoachSession sid s).coachSessions ∧
    objGet (removeCoachSession sid s).sessionDetails sid = none ∧
    objGet (removeCoachSession sid s).sessionDetails k =
      objGet s.sessionDetails k ∧
    (removeCoachSession sid s).assessmentSessions = s.assessmentSessions ∧
    (removeCoachSession sid s).journalEntries = s.journalEntries ∧
    (removeCoachSession sid s).activityLogs = s.activityLogs ∧
    (removeCoachSession sid s).user = s.user ∧
    (removeCoachSession sid s).adminToken = s.adminToken ∧
    (removeCoachSession sid s).userPersonalityType = s.userPersonalityType ∧
    (removeCoachSession sid s).userPersonalityAssessment =
      s.userPersonalityAssessment ∧
    (removeCoachSession sid s).userPersonalitySessionId =
      s.userPersonalitySessionId := by
  refine ⟨?_, ?_, ?_, rfl, rfl, rfl, rfl, rfl, rfl, rfl, rfl,
          ?_, ?_, ?_, rfl, rfl, rfl, rfl, rfl, rfl, rfl, rfl⟩
  · simp [removeAssessmentSession]
  · exact objGet_objDelete_self s.sessionDetails sid
  · exact objGet_objDelete_ne s.sessionDetails sid k h
  · simp [removeCoachSession]
  · exact objGet_objDelete_self s.sessionDetails sid
  · exact objGet_objDelete_ne s.sessionDetails sid k h

/-- C10 witness: the frame theorem applied at the started-then-stopped
state with a different key s2. -/
theorem removeSession_frame_witness :
    "s1" ∉ (removeAssessmentSession "s1" startedStoppedState).assessmentSessions ∧
    objGet (removeAssessmentSession "s1" startedStoppedState).sessionDetails
      "s1" = none ∧
    objGet (removeAssessmentSession "s1" startedStoppedState).sessionDetails
      "s2" = objGet startedStoppedState.sessionDetails "s2" ∧
    (removeAssessmentSession "s1" startedStoppedState).coachSessions =
      startedStoppedState.coachSessions ∧
    (removeAssessmentSession "s1" startedStoppedState).journalEntries =
      startedStoppedState.journalEntries ∧
    (removeAssessmentSession "s1" startedStoppedState).activityLogs =
      startedStoppedState.activityLogs ∧
    (removeAssessmentSession "s1" startedStoppedState).user =
      startedStoppedState.user ∧
    (removeAssessmentSession "s1" startedStoppedState).adminToken =
      startedStoppedState.adminToken ∧
    (removeAssessmentSession "s1" startedStoppedState).userPersonalityType =
      startedStoppedState.userPersonalityType ∧
    (removeAssessmentSession "s1"
        startedStoppedState).userPersonalityAssessment =
      startedStoppedState.userPersonalityAssessment ∧
    (removeAssessmentSession "s1" startedStoppedState).userPersonalitySessionId =
      startedStoppedState.userPersonalitySessionId ∧
    "s1" ∉ (removeCoachSession "s1" startedStoppedState).coachSessions ∧
    objGet (removeCoachSession "s1" startedStoppedState).sessionDetails "s1" =
      none ∧
    objGet (removeCoachSession "s1" startedStoppedState).sessionDetails "s2" =
      objGet startedStoppedState.sessionDetails "s2" ∧
    (removeCoachSession "s1" startedStoppedState).assessmentSessions =
      startedStoppedState.assessmentSessions ∧
    (removeCoachSession "s1" startedStoppedState).journalEntries =
      startedStoppedState.journalEntries ∧
    (removeCoachSession "s1" startedStoppedState).activityLogs =
      startedStoppedState.activityLogs ∧
    (removeCoachSession "s1" startedStoppedState).user =
      startedStoppedState.user ∧
    (removeCoachSession "s1" startedStoppedState).adminToken =
      startedStoppedState.adminToken ∧
    (removeCoachSession "s1" startedStoppedState).userPersonalityType =
      startedStoppedState.userPersonalityType ∧
    (removeCoachSession "s1" startedStoppedState).userPersonalityAssessment =
      startedStoppedState.userPersonalityAssessment ∧
    (removeCoachSession "s1" startedStoppedState).userPersonalitySessionId =
      startedStoppedState.userPersonalitySessionId :=
  removeSession_frame startedStoppedState "s1" "s2" (by decide)

/-- C2: updateSessionDetails shallow-merges the given partial record
into the existing record for the id: the stored record becomes the
spread of the old record with the details, every field the details
argument does not carry keeps its prior value, and when no record exists
for the id the stored record holds exactly the provided fields (the
action is total, it never fails). -/
theorem updateSessionDetails_shallow_merge (s : AppState) (sid : String)
    (details : SessionDetails) :
    (∀ old, objGet s.sessionDetails sid = some old →
      objGet (updateSessionDetails sid details s).sessionDetails sid =
        some (SessionDetails.spread old details)) ∧
    (objGet s.sessionDetails sid = none →
      objGet (updateSessionDetails sid details s).sessionDetails sid =
        some details) ∧
    (∀ old : SessionDetails,
      (details.id = none → (SessionDetails.spread old details).id = old.id) ∧
      (details.scenarioId = none →
        (SessionDetails.spread old details).scenarioId = old.scenarioId) ∧
      (details.scenarioType = none →
        (SessionDetails.spread old details).scenarioType = old.scenarioType) ∧
      (details.scenario_id = none →
        (SessionDetails.spread old details).scenario_id = old.scenario_id) ∧
      (details.scenario_name = none →
        (SessionDetails.spread old details).scenario_name = old.scenario_name) ∧
      (details.status = none →
        (SessionDetails.spread old details).status = old.status) ∧
      (details.created_at = none →
        (SessionDetails.spread old details).created_at = old.created_at) ∧
      (details.completed_at = none →
        (SessionDetails.spread old details).completed_at = old.completed_at) ∧
      (details.user_name = none →
        (SessionDetails.spread old details).user_name = old.user_name) ∧
      (details.user_email = none →
        (SessionDetails.spread old details).user_email = old.user_email) ∧
      (details.duration = none →
        (SessionDetails.spread old details).duration = old.duration) ∧
      (details.finalized_transcript = none →
        (SessionDetails.spread old details).finalized_transcript =
          old.finalized_transcript) ∧
      (details.evaluation_results = none →
        (SessionDetails.spread old details).evaluation_results =
          old.evaluation_results) ∧
      (details.improvement_results = none →
        (SessionDetails.spread old details).improvement_results =
          old.improvement_results)) := by
  refine ⟨?_, ?_, ?_⟩
  · intro old hold
    simpa [updateSessionDetails, hold] using
      objGet_objSet_self s.sessionDetails sid (SessionDetails.spread old details)
  · intro hnone
    have := objGet_objSet_self s.sessionDetails sid
      (SessionDetails.spread SessionDetails.empty details)
    simpa [updateSessionDetails, hnone, spread_empty_left] using this
  · intro old
    refine ⟨?_, ?_, ?_, ?_, ?_, ?_, ?_, ?_, ?_, ?_, ?_, ?_, ?_, ?_⟩ <;>
      · intro hf
        simp [SessionDetails.spread, hf, pickOpt]

/-- C2 witness: the merge theorem applied at the started-then-stopped
state (the stop update carries no created_at or scenario_id, and these
keep their values from the start event) and at the empty initial state
(the record is created holding exactly the provided fields). -/
theorem updateSessionDetails_shallow_merge_witness :
    objGet (updateSessionDetails "s1" stopDetails
        (addAssessmentSession "s1" (some (startDetails "t0"))
          initialState)).sessionDetails "s1" =
      some (SessionDetails.spread
        (addSessionRecord "s1" ScenarioType.assessment
          (some (startDetails "t0"))) stopDetails) ∧
    objGet (updateSessionDetails "s1" stopDetails initialState).sessionDetails
      "s1" = some stopDetails ∧
    (stopDetails.created_at = none →
      (SessionDetails.spread
        (addSessionRecord "s1" ScenarioType.assessment
          (some (startDetails "t0"))) stopDetails).created_at =
        (addSessionRecord "s1" ScenarioType.assessment
          (some (startDetails "t0"))).created_at) :=
  ⟨(updateSessionDetails_shallow_merge
      (addAssessmentSession "s1" (some (startDetails "t0")) initialState)
      "s1" stopDetails).1
      (addSessionRecord "s1" ScenarioType.assessment (some (startDetails "t0")))
      (by decide),
   (updateSessionDetails_shallow_merge initialState "s1" stopDetails).2.1
      (by decide),
   ((updateSessionDetails_shallow_merge
      (addAssessmentSession "s1" (some (startDetails "t0")) initialState)
      "s1" stopDetails).2.2
      (addSessionRecord "s1" ScenarioType.assessment
        (some (startDetails "t0")))).2.2.2.2.2.2.1⟩

/-- C8: clearUserData removes exactly the journal entries of the given
user and leaves every other store field unchanged, and clearAll restores
the exact factory-default initial state (no user, no admin token, no
personality fields, empty sequences, empty details, empty journal, empty
logs). -/
theorem clearUserData_clearAll_spec (s : AppState) (userId : String) :
    (clearUserData userId s).journalEntries =
      s.journalEntries.filter (fun entry => entry.userId ≠ userId) ∧
    (clearUserData userId s).user = s.user ∧
    (clearUserData userId s).adminToken = s.adminToken ∧
    (clearUserData userId s).userPersonalityType = s.userPersonalityType ∧
    (clearUserData userId s).userPersonalityAssessment =
      s.userPersonalityAssessment ∧
    (clearUserData userId s).userPersonalitySessionId =
      s.userPersonalitySessionId ∧
    (clearUserData userId s).assessmentSessions = s.assessmentSessions ∧
    (clearUserData userId s).coachSessions = s.coachSessions ∧
    (clearUserData userId s).sessionDetails = s.sessionDetails ∧
    (clearUserData userId s).activityLogs = s.activityLogs ∧
    (∀ entry ∈ (clearUserData userId s).journalEntries, entry.userId ≠ userId) ∧
    (∀ entry ∈ s.journalEntries, entry.userId ≠ userId →
      entry ∈ (clearUserData userId s).journalEntries) ∧
    clearAll s = initialState ∧
    initialState.user = none ∧
    initialState.adminToken = none ∧
    initialState.userPersonalityType = none ∧
    initialState.userPersonalityAssessment = none ∧
    initialState.userPersonalitySessionId = none ∧
    initialState.assessmentSessions = [] ∧
    initialState.coachSessions = [] ∧
    initialState.sessionDetails = [] ∧
    initialState.journalEntries = [] ∧
    initialState.activityLogs = [] := by
  refine ⟨rfl, rfl, rfl, rfl, rfl, rfl, rfl, rfl, rfl, rfl, ?_, ?_,
          rfl, rfl, rfl, rfl, rfl, rfl, rfl, rfl, rfl, rfl, rfl⟩
  · intro entry hmem
    have := List.of_mem_filter hmem
    simpa using this
  · intro entry hmem hne
    exact List.mem_filter.mpr ⟨hmem, by simpa using hne⟩

/-- A journal entry of user u1. -/
def journalU1 : JournalEntry :=
  ⟨"j1", "u1", "2025-01-01", ["joy"], 3, "sit", "th", "body", none, none,
   "c1", "m1"⟩

/-- A journal entry of user u2. -/
def journalU2 : JournalEntry :=
  ⟨"j2", "u2", "2025-01-02", ["calm"], 2, "sit2", "th2", "body2", none, none,
   "c2", "m2"⟩

/-- A state holding one journal entry of each of two users. -/
def journalState : AppState :=
  { initialState with journalEntries := [journalU1, journalU2] }

/-- C8 witness: the clear theorem applied at a concrete two-user journal
state, discharging the membership hypotheses with the entry of the other
user. -/
theorem clearUserData_clearAll_spec_witness :
    (clearUserData "u1" journalState).journalEntries =
      journalState.journalEntries.filter (fun entry => entry.userId ≠ "u1") ∧
    journalU2 ∈ (clearUserData "u1" journalState).journalEntries ∧
    clearAll journalState = initialState :=
  ⟨(clearUserData_clearAll_spec journalState "u1").1,
   (clearUserData_clearAll_spec journalState
      "u1").2.2.2.2.2.2.2.2.2.2.2.1 journalU2 (by decide) (by decide),
   (clearUserData_clearAll_spec journalState "u1").2.2.2.2.2.2.2.2.2.2.2.2.1⟩

/-- C5: a message whose origin differs from the trusted origin causes no
handler invocation and no store change, whatever its payload and
whatever store actions the registered handlers would perform. -/
theorem untrusted_origin_no_effect (act : Dispatch → AppState → AppState)
    (now : Int) (parseDate : String → Int) (event : MessageEvent)
    (s : AppState) (h : event.origin ≠ TOUGHTONGUE_ORIGIN) :
    handleMessage now parseDate event = none ∧
    listenerStep act now parseDate event s = s := by
  have h1 : handleMessage now parseDate event = none := by
    unfold handleMessage
    simp [h]
  exact ⟨h1, by simp [listenerStep, h1]⟩

/-- C5 witness: a well-formed start payload from an untrusted origin is
dropped even by handlers that would wipe the store. -/
theorem untrusted_origin_no_effect_witness :
    handleMessage 0 (fun _ => 0)
      ⟨"https://evil.example",
       Json.obj [("event", Json.str "onStart"),
                 ("sessionId", Json.str "abc")]⟩ = none ∧
    listenerStep (fun _ _ => initialState) 0 (fun _ => 0)
      ⟨"https://evil.example",
       Json.obj [("event", Json.str "onStart"),
                 ("sessionId", Json.str "abc")]⟩ startedStoppedState =
      startedStoppedState :=
  untrusted_origin_no_effect (fun _ _ => initialState) 0 (fun _ => 0)
    ⟨"https://evil.example",
     Json.obj [("event", Json.str "onStart"), ("sessionId", Json.str "abc")]⟩
    startedStoppedState (by decide)

/-- The flat-shape payload of C6. -/
def flatStartPayload : Json :=
  Json.obj
    [("event", Json.str "onStart"), ("sessionId", Json.str "abc"),
     ("scenarioId", Json.str "s1"), ("timestamp", Json.num 1000)]

/-- C6: the flat-shape start payload normalizes to the canonical record
with session_id abc, scenario_id s1 and timestamp 1000, and from the
trusted origin the listener dispatches exactly the onStart handler with
that record (and no other handler), for every ambient clock and date
parser. -/
theorem flat_onStart_normalization (now : Int) (parseDate : String → Int) :
    normalizeEventPayload now parseDate flatStartPayload =
      some ("onStart",
        ⟨Json.str "abc", some (Json.str "s1"), none, 1000⟩) ∧
    handleMessage now parseDate ⟨TOUGHTONGUE_ORIGIN, flatStartPayload⟩ =
      some (Dispatch.start
        ⟨Json.str "abc", some (Json.str "s1"), none, 1000⟩) := by
  constructor <;> rfl

/-- C4: importData returns false and leaves the state exactly unchanged
when the input is not valid JSON (parsing throws, modelled by none) or
when the parsed document lacks a top-level data field or a top-level
version field; it never throws (the model is a total function). -/
theorem importData_rejects_invalid (s : AppState) :
    importData none s = (s, false) ∧
    (∀ p : Json, jsGet p "data" = none → importData (some p) s = (s, false)) ∧
    (∀ p : Json, jsGet p "version" = none →
      importData (some p) s = (s, false)) := by
  refine ⟨rfl, ?_, ?_⟩ <;> intro p h <;>
    cases p <;> simp_all [importData, jsGet, jsTruthyOpt]

/-- C4 witness: a document with only a version key, a document with only
a data key, and an unparseable input are all rejected without touching a
nonempty state. -/
theorem importData_rejects_invalid_witness :
    importData none startedStoppedState = (startedStoppedState, false) ∧
    importData (some (Json.obj [("version", Json.str "1.0")]))
      startedStoppedState = (startedStoppedState, false) ∧
    importData (some (Json.obj [("data", Json.obj [])]))
      startedStoppedState = (startedStoppedState, false) :=
  ⟨(importData_rejects_invalid startedStoppedState).1,
   (importData_rejects_invalid startedStoppedState).2.1
     (Json.obj [("version", Json.str "1.0")]) rfl,
   (importData_rejects_invalid startedStoppedState).2.2
     (Json.obj [("data", Json.obj [])]) rfl⟩

theorem nullableStr_roundtrip (o : Option String) (h : o ≠ some "") :
    asStr (jsOrNull (some (encodeNullable Json.str o))) = o := by
  cases o with
  | none => rfl
  | some str =>
      have hne : str ≠ "" := fun he => h (by rw [he])
      simp [encodeNullable, jsOrNull, jsOrElse, jsTruthy, hne]

theorem user_roundtrip (o : Option User) :
    decodeUser (jsOrNull (some (encodeNullable encodeUser o))) = o := by
  cases o with
  | none => rfl
  | some u =>
      have ht : jsTruthy (encodeUser u) = true := rfl
      simp [encodeNullable, jsOrNull, jsOrElse, ht]

/-- C3 (amended): exporting and immediately importing restores the store
exactly (and importData reports success) for every state whose three
nullable personality string fields are not the empty string; an
empty-string value in one of them comes back as null instead, because
importData passes each imported field through a JS or-else-null
fallback.  All fields the export document covers are restored, and the
fields it does not cover (admin token, activity logs) are kept, so the
whole resulting state equals the pre-export state. -/
theorem export_import_roundtrip (s : AppState) (exportDate : String)
    (h1 : s.userPersonalityType ≠ some "")
    (h2 : s.userPersonalityAssessment ≠ some "")
    (h3 : s.userPersonalitySessionId ≠ some "") :
    importData (some (exportData exportDate s)) s = (s, true) := by
  simp [exportData, importData, jsGet, jsGetKvs, jsTruthyOpt, jsOrElse,
        jsTruthy, user_roundtrip,
        nullableStr_roundtrip s.userPersonalityType h1,
        nullableStr_roundtrip s.userPersonalityAssessment h2,
        nullableStr_roundtrip s.userPersonalitySessionId h3,
        decodeStrListD_encode, decodeDetailsMap_encode,
        decodeJournalList_encode]

/-- A populated state used as the C3 witness input. -/
def populatedState : AppState :=
  { user := some ⟨"u1", "Alice", some "a@example.com", UserType.localUser,
      "2025-01-01"⟩
    adminToken := some "tok"
    userPersonalityType := some "INTP"
    userPersonalityAssessment := some "an assessment text"
    userPersonalitySessionId := some "s1"
    assessmentSessions := ["s1"]
    coachSessions := ["c1"]
    sessionDetails :=
      [("s1", SessionDetails.spread
          (addSessionRecord "s1" ScenarioType.assessment
            (some (startDetails "t0"))) stopDetails)]
    journalEntries := [journalU1, journalU2]
    activityLogs := [] }

/-- C3 witness: the roundtrip theorem applied at a populated state. -/
theorem export_import_roundtrip_witness :
    importData (some (exportData "2025-06-01" populatedState))
      populatedState = (populatedState, true) :=
  export_import_roundtrip populatedState "2025-06-01" (by decide) (by decide)
    (by decide)

/-- A state whose personality type is the empty string. -/
def emptyTypeState : AppState :=
  { initialState with userPersonalityType := some "" }

/-- C3 counterexample: for the state whose userPersonalityType is the
empty string (reachable through setRawState or through
setUserPersonalityAssessment), export followed by import succeeds but
stores null for that field, so the resulting state differs from the
pre-export state on a field the export document covers. -/
theorem export_import_roundtrip_cex :
    (importData (some (exportData "2025-06-01" emptyTypeState))
        emptyTypeState).2 = true ∧
    (importData (some (exportData "2025-06-01" emptyTypeState))
        emptyTypeState).1.userPersonalityType = none ∧
    emptyTypeState.userPersonalityType = some "" := by
  decide

/-- C9: when a report card holds two or more items with the
overall-classification topic personality_assessment, every consumer uses
the first such item in list order — getPersonalityData takes its type
and note from it, buildAssessmentSummary depends only on that first item
together with the non-matching items, and markAsFinalAssessment stores
its score string as the personality type — and an item counts as a
dimension exactly when its topic differs from personality_assessment, so
the duplicate overall item is not among the dimensions. -/
theorem reportCard_first_match_consistent
    (rc l₁ l₂ : List ReportCardItem) (it it2 : ReportCardItem)
    (sid : String) (s : AppState) (d : SessionDetails)
    (e : EvaluationResults)
    (hrc : rc = l₁ ++ it :: l₂)
    (hfirst : ∀ x ∈ l₁, x.topic ≠ "personality_assessment")
    (hit : it.topic = "personality_assessment")
    (hit2 : it2 ∈ l₂) (hit2t : it2.topic = "personality_assessment")
    (hobj : objGet s.sessionDetails sid = some d)
    (hev : d.evaluation_results = some e)
    (hrc2 : e.report_card = some rc) :
    getPersonalityData (some rc) =
      ⟨jsStrOrNull (some it.score_str), jsStrOrNull (some it.note),
       rc.filter (fun x => x.topic ≠ "personality_assessment")⟩ ∧
    it2 ∉ (getPersonalityData (some rc)).dimensions ∧
    buildAssessmentSummary rc =
      buildAssessmentSummary
        (it :: rc.filter (fun x => x.topic ≠ "personality_assessment")) ∧
    (markAsFinalAssessment sid s).userPersonalityType =
      jsStrOrNull (some it.score_str) ∧
    (markAsFinalAssessment sid s).userPersonalityAssessment =
      some (buildAssessmentSummary rc) ∧
    (markAsFinalAssessment sid s).userPersonalitySessionId = some sid := by
  have hfind : rc.find? (fun item => item.topic == "personality_assessment") =
      some it := by
    subst hrc
    refine find?_append_first _ l₁ l₂ it ?_ (by simp [hit])
    intro x hx
    simpa using hfirst x hx
  have hmark : markAsFinalAssessment sid s =
      setUserPersonalityAssessment
        (jsStrOrNull
          ((rc.find? (fun item =>
            item.topic == "personality_assessment")).map (·.score_str)))
        (some (buildAssessmentSummary rc)) (some sid) s := by
    simp [markAsFinalAssessment, hobj, hev, hrc2]
  refine ⟨?_, ?_, ?_, ?_, ?_, ?_⟩
  · simp [getPersonalityData, hfind]
  · intro hmem
    simp only [getPersonalityData] at hmem
    have := List.of_mem_filter hmem
    simp [hit2t] at this
  · have hfind2 :
        (it :: rc.filter
            (fun x => !decide (x.topic = "personality_assessment"))).find?
          (fun item => item.topic == "personality_assessment") = some it := by
      simp [List.find?, hit]
    have hfilt :
        (it :: rc.filter
            (fun x => !decide (x.topic = "personality_assessment"))).filter
            (fun x => !decide (x.topic = "personality_assessment")) =
          rc.filter (fun x => !decide (x.topic = "personality_assessment")) := by
      simp [List.filter_cons, hit, List.filter_filter]
    simp [buildAssessmentSummary, hfind, hfind2, hfilt]
  · simp [hmark, hfind, setUserPersonalityAssessment]
  · simp [hmark, setUserPersonalityAssessment]
  · simp [hmark, setUserPersonalityAssessment]

/-- The first overall-classification item of the witness report card. -/
def paItem1 : ReportCardItem := ⟨"personality_assessment", 0, "INTP", "n1", 1⟩

/-- A duplicate overall-classification item. -/
def paItem2 : ReportCardItem := ⟨"personality_assessment", 0, "ENFP", "n2", 1⟩

/-- A dimension item. -/
def dimItem : ReportCardItem := ⟨"thinking_feeling", 70, "T", "nT", 1⟩

/-- The witness report card with two overall-classification items. -/
def dupReportCard : List ReportCardItem := [dimItem, paItem1, paItem2]

/-- A state whose session s1 detail carries the duplicate report card. -/
def dupCardState : AppState :=
  { initialState with
      sessionDetails :=
        [("s1",
          { SessionDetails.empty with
              evaluation_results :=
                some ⟨none, none, none, none, some dupReportCard, none⟩ })] }

/-- C9 witness: the consistency theorem applied at the duplicate report
card, showing the first item INTP wins everywhere. -/
theorem reportCard_first_match_consistent_witness :
    getPersonalityData (some dupReportCard) =
      ⟨jsStrOrNull (some paItem1.score_str), jsStrOrNull (some paItem1.note),
       dupReportCard.filter
         (fun x => x.topic ≠ "personality_assessment")⟩ ∧
    paItem2 ∉ (getPersonalityData (some dupReportCard)).dimensions ∧
    buildAssessmentSummary dupReportCard =
      buildAssessmentSummary
        (paItem1 :: dupReportCard.filter
          (fun x => x.topic ≠ "personality_assessment")) ∧
    (markAsFinalAssessment "s1" dupCardState).userPersonalityType =
      jsStrOrNull (some paItem1.score_str) ∧
    (markAsFinalAssessment "s1" dupCardState).userPersonalityAssessment =
      some (buildAssessmentSummary dupReportCard) ∧
    (markAsFinalAssessment "s1" dupCardState).userPersonalitySessionId =
      some "s1" :=
  reportCard_first_match_consistent dupReportCard [dimItem] [paItem2]
    paItem1 paItem2 "s1" dupCardState
    { SessionDetails.empty with
        evaluation_results :=
          some ⟨none, none, none, none, some dupReportCard, none⟩ }
    ⟨none, none, none, none, some dupReportCard, none⟩
    rfl (by decide) (by decide) (by decide) (by decide) (by decide) rfl rfl

end AlexiAId
